import Mathlib

/-!
# Verification of the tias alias/jargon resolution and wrapping engine

This file embeds, as executable Lean definitions, the core logic of the
`tias` command-line tool (files `src/tias/jargon.py`, `src/tias/aliases.py`,
`src/tias/app.py`, and the historical variants `src/jargon.py`,
`src/main.py`): the jargon lookup/wrapping engine, the alias registry with
its lazily-created persisted tables, and the command-level alias/jargon
management logic.  Strings are modelled as Lean `String` and the string
primitives used by the Python code (`in`, `replace`, `split`, `startswith`,
slicing) are reimplemented over `String.data` so that every definition
evaluates by kernel reduction.  Database tables are modelled as lists of
rows (`Option` of a list when the table may not exist yet); the in-memory
session state of the command interpreter is a `Session` structure.
-/

deriving instance DecidableEq for Except

namespace Tias

/-! ## String primitives (Python semantics) -/

/-- Bool test that one list occurs as a contiguous sublist of another,
used to model Python's `in` operator on strings. -/
def listIsInfixOf [BEq α] : List α → List α → Bool
  | pat, [] => pat.isEmpty
  | pat, l@(_ :: rest) => pat.isPrefixOf l || listIsInfixOf pat rest

/-- Python `needle in hay` for strings: substring test. -/
def strContains (hay needle : String) : Bool :=
  listIsInfixOf needle.data hay.data

/-- Python `s.startswith(pre)`. -/
def strStartsWith (s pre : String) : Bool :=
  pre.data.isPrefixOf s.data

/-- Python `s.endswith(suf)`. -/
def strEndsWith (s suf : String) : Bool :=
  suf.data.isSuffixOf s.data

/-- Python `s[n:]`. -/
def strDropLeft (s : String) (n : Nat) : String :=
  String.mk (s.data.drop n)

/-- Python `s[:-1]`. -/
def strDropLast (s : String) : String :=
  String.mk s.data.dropLast

/-- Replacement interleaving for Python `s.replace(old, new)` when `old` is
the empty string: `new` is inserted before every character and at the end. -/
def interleave (repl : List Char) : List Char → List Char
  | [] => repl
  | c :: cs => repl ++ c :: interleave repl cs

/-- Worker for `pyReplace`: replaces every non-overlapping occurrence of
`pat` (non-empty) left to right.  The fuel argument starts at the length of
the subject list; every step consumes at least one character and one unit
of fuel, so the fuel never runs out. -/
def pyReplaceAux (pat repl : List Char) : Nat → List Char → List Char
  | _, [] => []
  | 0, s => s
  | fuel + 1, c :: cs =>
    if pat.isPrefixOf (c :: cs) then
      repl ++ pyReplaceAux pat repl fuel (List.drop (pat.length - 1) cs)
    else
      c :: pyReplaceAux pat repl fuel cs

/-- Python `s.replace(pat, repl)`: replaces all non-overlapping occurrences
of `pat` in `s` by `repl`, left to right. -/
def pyReplace (s pat repl : String) : String :=
  if pat.data.isEmpty then String.mk (interleave repl.data s.data)
  else String.mk (pyReplaceAux pat.data repl.data s.data.length s.data)

/-- Worker for `pyCount`, same fuel discipline as `pyReplaceAux`. -/
def pyCountAux (pat : List Char) : Nat → List Char → Nat
  | _, [] => 0
  | 0, _ => 0
  | fuel + 1, c :: cs =>
    if pat.isPrefixOf (c :: cs) then
      1 + pyCountAux pat fuel (List.drop (pat.length - 1) cs)
    else
      pyCountAux pat fuel cs

/-- Python `s.count(pat)`: number of non-overlapping occurrences of `pat`
in `s` (for empty `pat`, Python returns `len(s) + 1`). -/
def pyCount (s pat : String) : Nat :=
  if pat.data.isEmpty then s.data.length + 1
  else pyCountAux pat.data s.data.length s.data

/-- Python `s.split(pat, 1)[0]` and `[1]` when `pat` occurs in `s`:
everything strictly before the first occurrence of `pat`, and everything
after it.  Only called with a non-empty `pat` that occurs in the subject. -/
def pySplitOnce (pat : List Char) : List Char → List Char × List Char
  | [] => ([], [])
  | c :: cs =>
    if pat.isPrefixOf (c :: cs) then ([], List.drop (pat.length - 1) cs)
    else
      let r := pySplitOnce pat cs
      (c :: r.1, r.2)

/-- Python `s.lower()` (ASCII case folding, which is all the interpreter
feeds it). -/
def pyLower (s : String) : String :=
  String.mk (s.data.map Char.toLower)

/-- Worker for `pySplit`: accumulates the current word in reverse. -/
def pySplitAux : List Char → List Char → List (List Char)
  | [], acc => if acc.isEmpty then [] else [acc.reverse]
  | c :: cs, acc =>
    if c.isWhitespace then
      if acc.isEmpty then pySplitAux cs [] else acc.reverse :: pySplitAux cs []
    else
      pySplitAux cs (c :: acc)

/-- Python `s.split()` with no argument: splits on runs of whitespace and
drops empty words. -/
def pySplit (s : String) : List String :=
  (pySplitAux s.data []).map String.mk

/-! ## The jargon table and the jargon engine (`src/tias/jargon.py`) -/

/-- One row of the `jargon` table:
`(language TEXT, jargon_text TEXT, jargon_key TEXT)`, `UNIQUE (language)`. -/
structure JRow where
  language : String
  jargon_text : String
  jargon_key : String
deriving DecidableEq, Repr

/-- Errors raised by the database driver; `operationalError` models
`sqlite3.OperationalError` (in particular: querying a missing table). -/
inductive DbError where
  | operationalError
deriving DecidableEq, Repr

/-- The query inside `load_jargon` (src/tias/jargon.py lines 86-100), over
an existing `jargon` table: `SELECT jargon_text, jargon_key FROM jargon
WHERE language = ?`, then `("", "")` when no record matches, else the first
record. -/
def loadJargonFromRows (rows : List JRow) (language : String) : String × String :=
  match rows.filter (fun r => r.language == language) with
  | [] => ("", "")
  | r :: _ => (r.jargon_text, r.jargon_key)

/-- `load_jargon` from src/tias/jargon.py (lines 73-100).  The table is
`none` when it has never been created, in which case the `SELECT` raises
`sqlite3.OperationalError` (this variant contains no `try`/`except` and
never creates the table itself). -/
def load_jargon (language : String) :
    Option (List JRow) → Except DbError (String × String)
  | none => .error .operationalError
  | some rows => .ok (loadJargonFromRows rows language)

/-- `wrap_jargon` from src/tias/jargon.py (lines 103-114), over an existing
jargon table (the application calls `init_jargon` at startup, so the table
exists whenever `wrap_jargon` runs):

* no jargon (empty template) → expression unchanged;
* jargon key not a substring of the expression → the template with
  `INSERT_HERE` replaced by the expression;
* otherwise → expression unchanged. -/
def wrap_jargon (expression language : String) (rows : List JRow) : String :=
  let p := loadJargonFromRows rows language
  if p.1 == "" then expression
  else if !(strContains expression p.2) then pyReplace p.1 "INSERT_HERE" expression
  else expression

/-! ## Default jargon (`get_default_jargon`, src/tias/jargon.py lines 174-319)

The Python templates are written with `textwrap.dedent` applied to indented
triple-quoted literals; the strings below are the dedented results
(whitespace-only lines are normalised to bare newlines by `dedent`). -/

def cJargonText : String :=
  "#include <stdbool.h>\n#include <stdio.h>\n\nint main(void) \x7b\n    INSERT_HERE\n\x7d"

def cppJargonText : String :=
  "#include <iostream>\n#include <stdio.h>\nusing namespace std;\n\nint main() \x7b\n    INSERT_HERE\n\x7d"

def csJargonText : String :=
  "namespace MyNamespace \x7b\n    class MyClass \x7b\n        static void Main(string[] args) \x7b\n            INSERT_HERE\n        \x7d\n    \x7d\n\x7d"

def dartJargonText : String :=
  "void main() \x7b\n    INSERT_HERE\n\x7d"

def goJargonText : String :=
  "package main\nimport \"fmt\"\n\nfunc main() \x7b\n    INSERT_HERE\n\x7d"

def javaJargonText : String :=
  "import java.util.*;\n\nclass MyClass \x7b\n    public static void main(String[] args) \x7b\n        Scanner scanner = new Scanner(System.in);\n        INSERT_HERE\n    \x7d\n\x7d"

def kotlinJargonText : String :=
  "fun main(args : Array<String>) \x7b\n    INSERT_HERE\n\x7d"

def objectiveCJargonText : String :=
  "#include <stdio.h>\n// Print with the `puts` function, not `NSLog`.\n\nint main() \x7b\n    INSERT_HERE\n\x7d"

def rustJargonText : String :=
  "fn main() \x7b\n    INSERT_HERE\n\x7d"

def scalaJargonText : String :=
  "object Main extends App \x7b\n    INSERT_HERE\n\x7d"

/-- The default jargon dictionary of src/tias/jargon.py, in Python dict
insertion order: the ten base languages followed by the dialect aliases
that share a base template. -/
def get_default_jargon : List (String × String × String) :=
  [ ("c", cJargonText, "int main("),
    ("cpp", cppJargonText, "int main("),
    ("cs", csJargonText, "static void Main("),
    ("dart", dartJargonText, "void main("),
    ("go", goJargonText, "func main("),
    ("java", javaJargonText, "public static void main("),
    ("kotlin", kotlinJargonText, "fun main("),
    ("objective-c", objectiveCJargonText, "int main("),
    ("rust", rustJargonText, "fn main("),
    ("scala", scalaJargonText, "object Main"),
    ("c-clang", cJargonText, "int main("),
    ("c-gcc", cJargonText, "int main("),
    ("c-tcc", cJargonText, "int main("),
    ("c#", csJargonText, "static void Main("),
    ("c++", cppJargonText, "int main("),
    ("cpp-clang", cppJargonText, "int main("),
    ("cpp-gcc", cppJargonText, "int main("),
    ("cs-core", csJargonText, "static void Main("),
    ("cs-csc", csJargonText, "static void Main("),
    ("cs-csi", csJargonText, "static void Main("),
    ("cs-mono-shell", csJargonText, "static void Main("),
    ("cs-mono", csJargonText, "static void Main("),
    ("java-jdk", javaJargonText, "public static void main("),
    ("java-openjdk", javaJargonText, "public static void main("),
    ("objective-c-clang", objectiveCJargonText, "int main("),
    ("objective-c-gcc", objectiveCJargonText, "int main(") ]

/-- `create_jargon_table` from src/tias/jargon.py (lines 37-58): the rows
of the freshly created `jargon` table, one `INSERT OR IGNORE` per default
entry (all keys are distinct, so nothing is ignored). -/
def create_jargon_table : List JRow :=
  get_default_jargon.map (fun e => ⟨e.1, e.2.1, e.2.2⟩)

/-- `init_jargon` from src/tias/jargon.py (lines 10-22): creates the jargon
table with the defaults if it does not exist, otherwise leaves it alone. -/
def init_jargon : Option (List JRow) → Option (List JRow)
  | none => some create_jargon_table
  | some rows => some rows

/-! ## The historical variant (`src/jargon.py`)

Same engine, but the table (there named `all_jargon`, same column shape) is
created lazily inside `load_jargon` itself, and its default `c`/`cpp`/`cs`
templates differ from the current ones. -/

def cJargonTextOld : String :=
  "#include <ctype.h>\n#include <math.h>\n#include <stdbool.h>\n#include <stdio.h>\n#include <stdlib.h>\n#include <string.h>\n#include <time.h>\n\nint main(void) \x7b\n    INSERT_HERE\n\x7d"

def cppJargonTextOld : String :=
  "#include <algorithm>\n#include <cctype>\n#include <cstring>\n#include <ctime>\n#include <fstream>\n#include <iomanip>\n#include <iostream>\n#include <math.h>\n#include <numeric>\n#include <sstream>\n#include <stdio.h>\n#include <string>\n#include <vector>\nusing namespace std;\n\nint main() \x7b\n    INSERT_HERE\n\x7d"

/-- The old C# template keeps nine trailing spaces after `class MyClass` 's
opening brace (present in the source literal and not touched by `dedent`). -/
def csJargonTextOld : String :=
  "namespace MyNamespace \x7b\n    class MyClass \x7b         \n        static void Main(string[] args) \x7b\n            INSERT_HERE\n        \x7d\n    \x7d\n\x7d"

/-- The default jargon dictionary of src/jargon.py (lines 131-292), in
insertion order.  The `objective-c` template's whitespace-only line is
normalised to a bare newline by `dedent`, so it equals the current one. -/
def get_default_jargon_old : List (String × String × String) :=
  [ ("c", cJargonTextOld, "int main("),
    ("cpp", cppJargonTextOld, "int main("),
    ("cs", csJargonTextOld, "static void Main("),
    ("dart", dartJargonText, "void main("),
    ("go", goJargonText, "func main("),
    ("java", javaJargonText, "public static void main("),
    ("kotlin", kotlinJargonText, "fun main("),
    ("objective-c", objectiveCJargonText, "int main("),
    ("rust", rustJargonText, "fn main("),
    ("scala", scalaJargonText, "object Main"),
    ("c-clang", cJargonTextOld, "int main("),
    ("c-gcc", cJargonTextOld, "int main("),
    ("c-tcc", cJargonTextOld, "int main("),
    ("c#", csJargonTextOld, "static void Main("),
    ("c++", cppJargonTextOld, "int main("),
    ("cpp-clang", cppJargonTextOld, "int main("),
    ("cpp-gcc", cppJargonTextOld, "int main("),
    ("cs-core", csJargonTextOld, "static void Main("),
    ("cs-csc", csJargonTextOld, "static void Main("),
    ("cs-csi", csJargonTextOld, "static void Main("),
    ("cs-mono-shell", csJargonTextOld, "static void Main("),
    ("cs-mono", csJargonTextOld, "static void Main("),
    ("java-jdk", javaJargonText, "public static void main("),
    ("java-openjdk", javaJargonText, "public static void main("),
    ("objective-c-clang", objectiveCJargonText, "int main("),
    ("objective-c-gcc", objectiveCJargonText, "int main(") ]

/-- The tail of `create_jargon_table` from src/jargon.py (lines 28-63):
after seeding the table, return `default_jargon[identifier]` when the
identifier is non-empty (truthy) and present, else `("", "")`. -/
def lookupDefaultJargonOld (identifier : String) : String × String :=
  if identifier != "" then
    match List.lookup identifier get_default_jargon_old with
    | some p => p
    | none => ("", "")
  else ("", "")

/-- `create_jargon_table` from src/jargon.py (lines 28-63): returns the
identifier's default jargon together with the freshly seeded table. -/
def create_jargon_table_old (identifier : String) : (String × String) × List JRow :=
  (lookupDefaultJargonOld identifier,
   get_default_jargon_old.map (fun e => ⟨e.1, e.2.1, e.2.2⟩))

/-- `load_jargon` from src/jargon.py (lines 80-112): reads the row for the
identifier, returning `("", "")` when absent; a missing table raises
`sqlite3.OperationalError`, which this variant catches by creating the
table with the defaults and returning the identifier's default entry.
The second component is the table after the call. -/
def load_jargon_old (identifier : String) :
    Option (List JRow) → (String × String) × List JRow
  | some rows => (loadJargonFromRows rows identifier, rows)
  | none => create_jargon_table_old identifier

/-! ## Errors of the command interpreter (`tias.errors.InputError` messages) -/

/-- The distinct `InputError`s raised by `parse_choice`, `print_jargon` and
`create_jargon`, identified by which message is produced. -/
inductive CmdError where
  | invalidLanguage (language : String)
  | notAnAlias (name : String)
  | noJargon (language : String)
  | alreadyAliasOf (name language : String)
  | cancelledCreatingAlias
  | alreadyALanguage (name : String)
  | jargonMustContainMarker
  | jargonKeyEmpty
deriving DecidableEq, Repr

/-- `create_jargon` from src/tias/jargon.py (lines 132-159), with the two
interactively collected strings passed as arguments: rejects a template
without the `INSERT_HERE` marker, then an empty key, before inserting
anything; otherwise inserts the row. -/
def create_jargon (language jargon jargon_key : String) (rows : List JRow) :
    Except CmdError (List JRow) :=
  if !(strContains jargon "INSERT_HERE") then .error .jargonMustContainMarker
  else if jargon_key == "" then .error .jargonKeyEmpty
  else .ok (rows ++ [⟨language, jargon, jargon_key⟩])

/-! ## The aliases registry (`src/tias/aliases.py`) -/

/-- The built-in default aliases seeded by `create_aliases_table`
(src/tias/aliases.py lines 11-26), in dict insertion order. -/
def default_aliases : List (String × String) :=
  [ ("c", "c-clang"),
    ("c#", "cs-csc"),
    ("c++", "cpp-clang"),
    ("cpp", "cpp-clang"),
    ("cs", "cs-csc"),
    ("f#", "fs-core"),
    ("fs", "fs-core"),
    ("java", "java-openjdk"),
    ("javascript", "javascript-node"),
    ("js", "javascript-node"),
    ("objective-c", "objective-c-clang"),
    ("py", "python3"),
    ("python", "python3"),
    ("swift", "swift4") ]

/-- `load_aliases` from src/tias/aliases.py (lines 51-68): reads all alias
rows; an empty table yields an empty mapping; a missing table (`none`,
where the `SELECT` raises `sqlite3.OperationalError`) is created seeded
with the defaults, which are returned.  The second component is the table
after the call. -/
def load_aliases :
    Option (List (String × String)) →
      List (String × String) × Option (List (String × String))
  | none => (default_aliases, some default_aliases)
  | some rows => if rows = [] then ([], some rows) else (rows, some rows)

/-! ## Session and database state -/

/-- The in-memory state the command interpreter threads through
`parse_choice`: the `languages` list and the `aliases` dict. -/
structure Session where
  languages : List String
  aliases : List (String × String)
deriving DecidableEq, Repr

/-- The three persisted tables of the registry store (each already
created). -/
structure DB where
  languagesTable : List String
  aliasesTable : List (String × String)
  jargonTable : List JRow
deriving DecidableEq, Repr

/-- Python dict assignment `d[k] = v`: replaces the value in place when the
key exists, else appends the binding. -/
def dictSet (d : List (String × String)) (k v : String) : List (String × String) :=
  if (List.lookup k d).isSome then
    d.map (fun p => if p.1 == k then (k, v) else p)
  else d ++ [(k, v)]

/-- `create_alias` from src/tias/aliases.py (lines 71-97): sets the alias
in the in-memory dict, appends it to the in-memory language list, and
inserts it into the `languages` and `aliases` tables. -/
def create_alias (new_alias language : String) (st : Session) (db : DB) :
    Session × DB :=
  ({ languages := st.languages ++ [new_alias],
     aliases := dictSet st.aliases new_alias language },
   { db with
     languagesTable := db.languagesTable ++ [new_alias],
     aliasesTable := db.aliasesTable ++ [(new_alias, language)] })

/-- `delete_alias` from src/tias/aliases.py (lines 100-127): removes the
key from the in-memory dict, the first occurrence of the name from the
in-memory language list, and every matching row from the `aliases`,
`languages` and `jargon` tables. -/
def delete_alias (name : String) (st : Session) (db : DB) : Session × DB :=
  ({ languages := st.languages.erase name,
     aliases := st.aliases.filter (fun p => p.1 != name) },
   { languagesTable := db.languagesTable.filter (fun l => l != name),
     aliasesTable := db.aliasesTable.filter (fun p => p.1 != name),
     jargonTable := db.jargonTable.filter (fun r => r.language != name) })

/-! ## Command dispatch (`parse_choice`, src/tias/app.py) -/

/-- The `alias <name>` branch of `parse_choice` (lines 143-149): the name
must be a known language, then a known alias; prints its target. -/
def aliasCmd (name : String) (st : Session) : Except CmdError String :=
  if name ∈ st.languages then
    match List.lookup name st.aliases with
    | some target => .ok target
    | none => .error (.notAnAlias name)
  else .error (.invalidLanguage name)

/-- The `jargon <language>` branch of `parse_choice` (lines 119-123)
followed by `print_jargon` (src/tias/jargon.py lines 25-34): the language
must be known; an empty stored template is the "no jargon" error. -/
def jargonCmd (language : String) (st : Session) (rows : List JRow) :
    Except CmdError (String × String) :=
  if language ∈ st.languages then
    let p := loadJargonFromRows rows language
    if p.1 == "" then .error (.noJargon language) else .ok p
  else .error (.invalidLanguage language)

/-- The `delete alias <name>` branch of `parse_choice` (lines 173-178):
fails when the name is not a key of the alias dict, else delegates to
`delete_alias`. -/
def deleteAliasCmd (name : String) (st : Session) (db : DB) :
    Except CmdError (Session × DB) :=
  if (List.lookup name st.aliases).isSome then .ok (delete_alias name st db)
  else .error (.notAnAlias name)

/-! ### The overwrite confirmation of `create alias` -/

/-- A dynamically typed Python value, as far as the confirmation check
needs: a string or a list of strings. -/
inductive PyVal where
  | str (s : String)
  | list (xs : List String)
deriving DecidableEq, Repr

/-- Python `==` on such values: values of different types are unequal. -/
def pyEq : PyVal → PyVal → Bool
  | .str a, .str b => a == b
  | .list a, .list b => a == b
  | _, _ => false

/-- Python `x in t` for a tuple `t`: membership by `==`. -/
def pyIn (x : PyVal) (t : List PyVal) : Bool :=
  t.any (fun y => pyEq x y)

/-- The confirmation test of the `create alias` overwrite path
(src/tias/app.py line 163): `c.lower().split() not in ("y", "yes")`,
negated.  Note that `c.lower().split()` is a *list* of words while the
tuple holds strings. -/
def confirmAnswerAccepted (answer : String) : Bool :=
  pyIn (.list (pySplit (pyLower answer))) [.str "y", .str "yes"]

/-- The `create alias <new> <language>` branch of `parse_choice`
(lines 150-172), with the two parsed words and the user's confirmation
answer passed as arguments:

* `<new>` already an alias of the same (typed) language → error;
* `<new>` already an alias of something else → the confirmation prompt,
  cancelling unless the answer passes `confirmAnswerAccepted`;
* otherwise `<new>` already a language → error;
* `<language>` not a known language → error;
* finally `<language>` is replaced by its alias target when it is itself
  an alias, and `create_alias` persists the pair. -/
def createAliasCmd (new_alias language answer : String) (st : Session) (db : DB) :
    Except CmdError (Session × DB) :=
  let gate : Option CmdError :=
    match List.lookup new_alias st.aliases with
    | some target =>
      if language == target then some (.alreadyAliasOf new_alias language)
      else if !(confirmAnswerAccepted answer) then some .cancelledCreatingAlias
      else none
    | none =>
      if new_alias ∈ st.languages then some (.alreadyALanguage new_alias)
      else none
  match gate with
  | some e => .error e
  | none =>
    if language ∈ st.languages then
      let resolved :=
        match List.lookup language st.aliases with
        | some t => t
        | none => language
      .ok (create_alias new_alias resolved st db)
    else .error (.invalidLanguage language)

/-- `create_languages_table` from src/tias/app.py (lines 218-240): the
language list bootstrapped from the execution collaborator's reported
languages extended with the alias keys (the same list is persisted). -/
def create_languages_table (tioLanguages : List String)
    (aliases : List (String × String)) : List String :=
  tioLanguages ++ aliases.map (fun p => p.1)

/-! ## Code-block unwrapping and code collection (`src/tias/app.py`) -/

/-- `unwrap_code_block` from src/tias/app.py (lines 333-350): strips a
leading triple-backtick fence (and a newline right after it), splits off
everything after a closing fence as the stdin suffix, and drops one
trailing newline from the code body; input without a leading fence is
returned unchanged with an empty suffix. -/
def unwrap_code_block (statement : String) : String × String :=
  if !(strStartsWith statement "```") then (statement, "")
  else
    let s1 := strDropLeft statement 3
    let s2 := if strStartsWith s1 "\n" then strDropLeft s1 1 else s1
    let r :=
      if strContains s2 "```" then
        let q := pySplitOnce "```".data s2.data
        (String.mk q.1, String.mk q.2)
      else (s2, "")
    let s3 := if strEndsWith r.1 "\n" then strDropLast r.1 else r.1
    (s3, r.2)

/-- Alias resolution as performed inline by `get_code`
(src/tias/app.py lines 306-307): `aliases[identifier]` when the identifier
is an alias key, else the identifier unchanged. -/
def resolve_alias (identifier : String) (aliases : List (String × String)) : String :=
  match List.lookup identifier aliases with
  | some language => language
  | none => identifier

/-- `get_code` from src/tias/app.py (lines 297-308), with the collected
code passed as an argument, over an existing jargon table: unwraps a fenced
block when a fence occurs in the code, wraps jargon keyed on the chosen
(possibly aliased) language, and only then replaces the chosen language by
its alias target.  Returns `(language, code, inputs)`. -/
def get_code (chosen_language : String) (aliases : List (String × String))
    (rows : List JRow) (code0 : String) : String × String × String :=
  let inputs := ""
  let r := if strContains code0 "```" then unwrap_code_block code0 else (code0, inputs)
  let code := wrap_jargon r.1 chosen_language rows
  let language :=
    match List.lookup chosen_language aliases with
    | some l => l
    | none => chosen_language
  (language, code, r.2)

/-! ## Helper lemmas -/

/-- The empty list is an infix of every list. -/
theorem listIsInfixOf_nil (l : List Char) : listIsInfixOf ([] : List Char) l = true := by
  cases l <;> simp [listIsInfixOf, List.isPrefixOf]

/-- The empty string is a substring of every string, so Python's
`"" in s` is always `True`. -/
theorem strContains_empty_needle (s : String) : strContains s "" = true :=
  listIsInfixOf_nil s.data

/-- A successful association-list lookup exhibits a member of the list. -/
theorem lookup_some_mem {a b : String} {l : List (String × String)}
    (h : List.lookup a l = some b) : (a, b) ∈ l := by
  induction l with
  | nil => simp at h
  | cons p tl ih =>
    obtain ⟨k, v⟩ := p
    by_cases hak : a = k
    · subst hak
      rw [List.lookup_cons_self] at h
      obtain rfl : v = b := by injection h
      exact List.mem_cons_self _ _
    · rw [List.lookup_cons] at h
      rw [beq_eq_false_iff_ne.mpr hak] at h
      exact List.mem_cons_of_mem _ (ih h)

/-- Looking up a key in a list from which all pairs with that key were
filtered out yields nothing. -/
theorem lookup_filter_self (a : String) (l : List (String × String)) :
    List.lookup a (l.filter (fun p => p.1 != a)) = none := by
  induction l with
  | nil => rfl
  | cons p tl ih =>
    by_cases h : p.1 = a
    · simpa [List.filter, h] using ih
    · obtain ⟨k, v⟩ := p
      simp only at h
      rw [List.filter_cons_of_pos (by simpa using h), List.lookup_cons,
        beq_eq_false_iff_ne.mpr (Ne.symm h)]
      exact ih

/-! ## Claim theorems -/

/-- C1: for every code string and identifier, `wrap_jargon` returns the
code unchanged when the stored template is empty or when the stored jargon
key occurs as a substring of the code, and otherwise returns the stored
template with its `INSERT_HERE` marker replaced by the code; in particular,
for jargon `(template = "HEADER\nINSERT_HERE\nFOOTER", key = "ENTRY(")`,
wrapping `"ENTRY() { x(); }"` returns it unchanged and wrapping `"x();"`
returns `"HEADER\nx();\nFOOTER"`. -/
theorem wrap_jargon_spec :
    (∀ (code identifier template key : String) (rows : List JRow),
        loadJargonFromRows rows identifier = (template, key) →
        wrap_jargon code identifier rows =
          if template = "" then code
          else if strContains code key = true then code
          else pyReplace template "INSERT_HERE" code) ∧
    (∀ identifier : String,
        wrap_jargon "ENTRY() \x7b x(); \x7d" identifier
            [⟨identifier, "HEADER\nINSERT_HERE\nFOOTER", "ENTRY("⟩] =
          "ENTRY() \x7b x(); \x7d" ∧
        wrap_jargon "x();" identifier
            [⟨identifier, "HEADER\nINSERT_HERE\nFOOTER", "ENTRY("⟩] =
          "HEADER\nx();\nFOOTER") := by
  constructor
  · intro code identifier template key rows h
    simp only [wrap_jargon, h]
    by_cases ht : template = ""
    · simp [ht]
    · by_cases hc : strContains code key = true
      · simp [ht, hc]
      · simp [ht, hc]
  · intro identifier
    constructor
    · simp only [wrap_jargon, loadJargonFromRows, List.filter, beq_self_eq_true,
        cond_true]
      decide
    · simp only [wrap_jargon, loadJargonFromRows, List.filter, beq_self_eq_true,
        cond_true]
      decide

/-- Witness for C1's general part at a concrete jargon table and code. -/
theorem wrap_jargon_spec_witness :
    wrap_jargon "x();" "L" [⟨"L", "A INSERT_HERE B", "K("⟩] =
      if ("A INSERT_HERE B" : String) = "" then "x();"
      else if strContains "x();" "K(" = true then "x();"
      else pyReplace "A INSERT_HERE B" "INSERT_HERE" "x();" :=
  wrap_jargon_spec.1 "x();" "L" "A INSERT_HERE B" "K("
    [⟨"L", "A INSERT_HERE B", "K("⟩] (by decide)

/-- C10: for every jargon entry whose stored key is the empty string and
whose template is non-empty, `wrap_jargon` returns the submitted code
unchanged for every code string, because the empty string is a substring
of every string. -/
theorem wrap_jargon_empty_key (code identifier template : String)
    (rows : List JRow) (htemplate : template ≠ "")
    (h : loadJargonFromRows rows identifier = (template, "")) :
    wrap_jargon code identifier rows = code := by
  simp only [wrap_jargon, h]
  simp [htemplate, strContains_empty_needle]

/-- Witness for C10 at a concrete entry with an empty key. -/
theorem wrap_jargon_empty_key_witness :
    wrap_jargon "print(3)" "python3"
        [⟨"python3", "T INSERT_HERE", ""⟩] = "print(3)" :=
  wrap_jargon_empty_key "print(3)" "python3" "T INSERT_HERE"
    [⟨"python3", "T INSERT_HERE", ""⟩] (by decide) (by decide)

/-- C9: `unwrap_code_block` on an input fenced by triple backticks, with
text after the closing fence, returns the code body and that text as the
stdin suffix; and every input that does not start with triple backticks is
returned unchanged with an empty stdin string. -/
theorem unwrap_code_block_spec :
    unwrap_code_block "```\ncode line\n```trailing" = ("code line", "trailing") ∧
    (∀ s : String, strStartsWith s "```" = false → unwrap_code_block s = (s, "")) := by
  constructor
  · decide
  · intro s h
    simp [unwrap_code_block, h]

/-- Witness for C9's unfenced case at a concrete input. -/
theorem unwrap_code_block_spec_witness :
    unwrap_code_block "print(3)" = ("print(3)", "") :=
  unwrap_code_block_spec.2 "print(3)" (by decide)

/-- C8: `load_aliases` on a missing table creates it seeded with the fixed
built-in default set of 14 aliases (including `c→c-clang`, `py→python3`,
`js→javascript-node`) and returns exactly those defaults; on an existing
empty table it returns an empty mapping. -/
theorem load_aliases_spec :
    load_aliases none = (default_aliases, some default_aliases) ∧
    default_aliases.length = 14 ∧
    List.lookup "c" default_aliases = some "c-clang" ∧
    List.lookup "py" default_aliases = some "python3" ∧
    List.lookup "js" default_aliases = some "javascript-node" ∧
    load_aliases (some []) = ([], some []) :=
  ⟨rfl, by decide, by decide, by decide, by decide, rfl⟩

/-- C2: in `get_code`, the jargon lookup is keyed on the original,
pre-resolution identifier; alias resolution — a total function returning
`aliases[identifier]` when present and the identifier unchanged otherwise —
is applied once, after jargon wrapping, so the returned (dispatched)
language is the canonical target while the returned code depends only on
the original identifier's jargon.  Stated as: the language component equals
`resolve_alias` of the original identifier (which agrees with
`(lookup).getD`); the code component is `wrap_jargon` keyed on the original
identifier; the code and stdin components do not depend on the alias
mapping at all; and the language component does not depend on the jargon
table. -/
theorem get_code_spec :
    (∀ (identifier : String) (aliases : List (String × String)),
        resolve_alias identifier aliases =
          (List.lookup identifier aliases).getD identifier) ∧
    (∀ (chosen_language : String) (aliases : List (String × String))
        (rows : List JRow) (code0 : String),
        (get_code chosen_language aliases rows code0).1 =
          resolve_alias chosen_language aliases) ∧
    (∀ (chosen_language : String) (aliases : List (String × String))
        (rows : List JRow) (code0 : String),
        (get_code chosen_language aliases rows code0).2.1 =
          wrap_jargon
            (if strContains code0 "```" then (unwrap_code_block code0).1 else code0)
            chosen_language rows) ∧
    (∀ (chosen_language : String) (aliases₁ aliases₂ : List (String × String))
        (rows : List JRow) (code0 : String),
        (get_code chosen_language aliases₁ rows code0).2 =
          (get_code chosen_language aliases₂ rows code0).2) ∧
    (∀ (chosen_language : String) (aliases : List (String × String))
        (rows₁ rows₂ : List JRow) (code0 : String),
        (get_code chosen_language aliases rows₁ code0).1 =
          (get_code chosen_language aliases rows₂ code0).1) := by
  refine ⟨?_, ?_, ?_, ?_, ?_⟩
  · intro identifier aliases
    cases h : List.lookup identifier aliases <;> simp [resolve_alias, h]
  · intro chosen_language aliases rows code0
    cases h : List.lookup chosen_language aliases <;>
      simp [get_code, resolve_alias, h]
  · intro chosen_language aliases rows code0
    by_cases h : strContains code0 "```" = true <;> simp [get_code, h]
  · intro chosen_language aliases₁ aliases₂ rows code0
    simp [get_code]
  · intro chosen_language aliases rows₁ rows₂ code0
    simp [get_code]

/-- C3 counterexample: with the jargon table never created, `load_jargon`
does not return `("", "")` for every identifier: the historical variant
(src/jargon.py) returns the `c` default jargon for identifier `"c"`, and
the current variant (src/tias/jargon.py) raises a database error instead
of creating the table. -/
theorem load_jargon_missing_table_counterexample :
    (load_jargon_old "c" none).1 ≠ ("", "") ∧
    load_jargon "c" none = Except.error DbError.operationalError := by
  exact ⟨by decide, rfl⟩

/-- C3 (amended): `load_jargon` returns `("", "")` rather than raising an
error when the identifier has no jargon entry in an existing table; when
the jargon table has never been created, the historical variant first
creates the table seeded with the defaults as a side effect and returns
the identifier's default entry — `("", "")` exactly when the identifier
has no default jargon — while the current variant raises a database error
there, the lazy creation having moved into `init_jargon`. -/
theorem load_jargon_spec :
    (∀ (language : String) (rows : List JRow),
        rows.filter (fun r => r.language == language) = [] →
        load_jargon language (some rows) = .ok ("", "")) ∧
    (∀ identifier : String,
        load_jargon_old identifier none =
          (lookupDefaultJargonOld identifier,
            get_default_jargon_old.map (fun e => ⟨e.1, e.2.1, e.2.2⟩))) ∧
    (∀ identifier : String,
        List.lookup identifier get_default_jargon_old = none →
        (load_jargon_old identifier none).1 = ("", "")) ∧
    init_jargon none = some create_jargon_table ∧
    (∀ rows : List JRow, init_jargon (some rows) = some rows) := by
  refine ⟨?_, ?_, ?_, rfl, fun _ => rfl⟩
  · intro language rows h
    simp [load_jargon, loadJargonFromRows, h]
  · intro identifier
    rfl
  · intro identifier h
    simp [load_jargon_old, create_jargon_table_old, lookupDefaultJargonOld, h]

/-- Witness for C3's amended no-entry and no-default cases at concrete
identifiers. -/
theorem load_jargon_spec_witness :
    load_jargon "zig" (some []) = .ok ("", "") ∧
    (load_jargon_old "zig" none).1 = ("", "") :=
  ⟨load_jargon_spec.1 "zig" [] (by decide),
   load_jargon_spec.2.2.1 "zig" (by decide)⟩

/-- C7 counterexample: jargon creation accepts a template containing the
`INSERT_HERE` marker twice and persists it, so not every jargon entry's
template contains exactly one marker. -/
theorem create_jargon_two_markers :
    create_jargon "mylang" "INSERT_HERE INSERT_HERE" "k" [] =
      Except.ok [⟨"mylang", "INSERT_HERE INSERT_HERE", "k"⟩] ∧
    pyCount "INSERT_HERE INSERT_HERE" "INSERT_HERE" = 2 := by
  exact ⟨by decide, by decide⟩

set_option maxRecDepth 8192 in
/-- C7 (amended): every default jargon entry's template text contains
exactly one `INSERT_HERE` insertion marker, and jargon creation rejects,
before persisting anything, any template lacking the marker and any empty
jargon key — but it does not bound the number of markers, so user-created
entries may contain more than one. -/
theorem jargon_marker_spec :
    (∀ e ∈ get_default_jargon, pyCount e.2.1 "INSERT_HERE" = 1) ∧
    (∀ (language jargon jargon_key : String) (rows : List JRow),
        strContains jargon "INSERT_HERE" = false →
        create_jargon language jargon jargon_key rows =
          .error .jargonMustContainMarker) ∧
    (∀ (language jargon : String) (rows : List JRow),
        strContains jargon "INSERT_HERE" = true →
        create_jargon language jargon "" rows = .error .jargonKeyEmpty) ∧
    (∀ (language jargon jargon_key : String) (rows : List JRow),
        strContains jargon "INSERT_HERE" = true → jargon_key ≠ "" →
        create_jargon language jargon jargon_key rows =
          .ok (rows ++ [⟨language, jargon, jargon_key⟩])) := by
  refine ⟨by decide, ?_, ?_, ?_⟩
  · intro language jargon jargon_key rows h
    simp [create_jargon, h]
  · intro language jargon rows h
    simp [create_jargon, h]
  · intro language jargon jargon_key rows h hk
    simp [create_jargon, h, hk]

/-- Witness for C7's amended rejection clauses at concrete inputs. -/
theorem jargon_marker_spec_witness :
    create_jargon "zig" "no marker here" "k" [] =
      Except.error CmdError.jargonMustContainMarker ∧
    create_jargon "zig" "a INSERT_HERE b" "" [] =
      Except.error CmdError.jargonKeyEmpty ∧
    create_jargon "zig" "a INSERT_HERE b" "k" [] =
      Except.ok [⟨"zig", "a INSERT_HERE b", "k"⟩] :=
  ⟨jargon_marker_spec.2.1 "zig" "no marker here" "k" [] (by decide),
   jargon_marker_spec.2.2.1 "zig" "a INSERT_HERE b" [] (by decide),
   jargon_marker_spec.2.2.2 "zig" "a INSERT_HERE b" "k" [] (by decide) (by decide)⟩

/-- C5: the `create alias` overwrite confirmation compares the word *list*
`c.lower().split()` against the string tuple `("y", "yes")`, a test that is
always false in Python, so a confirmed overwrite can never persist: with
`py` an existing alias of `python3`, `create alias py javascript-node`
answered `"y"` (or `"yes"`) is always cancelled.  The first conjunct shows
the confirmation test rejects every possible answer. -/
theorem create_alias_overwrite_always_cancelled :
    (∀ answer : String, confirmAnswerAccepted answer = false) ∧
    createAliasCmd "py" "javascript-node" "y"
        ⟨["python3", "javascript-node", "py"], [("py", "python3")]⟩
        ⟨["python3", "javascript-node", "py"], [("py", "python3")], []⟩ =
      Except.error CmdError.cancelledCreatingAlias ∧
    createAliasCmd "py" "javascript-node" "yes"
        ⟨["python3", "javascript-node", "py"], [("py", "python3")]⟩
        ⟨["python3", "javascript-node", "py"], [("py", "python3")], []⟩ =
      Except.error CmdError.cancelledCreatingAlias := by
  refine ⟨?_, by decide, by decide⟩
  intro answer
  simp [confirmAnswerAccepted, pyIn, pyEq]

/-- C4 counterexample: after deleting the known alias `py`, the commands
`alias py` and `jargon py` do not fail with the not-an-alias / no-jargon
errors the claim names: the name is gone from the languages set, so both
fail earlier with the unknown-identifier (invalid language) error. -/
theorem delete_alias_error_counterexample :
    deleteAliasCmd "py"
        ⟨["python3", "py"], [("py", "python3")]⟩
        ⟨["python3", "py"], [("py", "python3")], [⟨"py", "x INSERT_HERE", "k"⟩]⟩ =
      Except.ok (⟨["python3"], []⟩, ⟨["python3"], [], []⟩) ∧
    aliasCmd "py" ⟨["python3"], []⟩ =
      Except.error (CmdError.invalidLanguage "py") ∧
    aliasCmd "py" ⟨["python3"], []⟩ ≠
      Except.error (CmdError.notAnAlias "py") ∧
    jargonCmd "py" ⟨["python3"], []⟩ [] =
      Except.error (CmdError.invalidLanguage "py") ∧
    jargonCmd "py" ⟨["python3"], []⟩ [] ≠
      Except.error (CmdError.noJargon "py") := by
  decide

/-- C4 (amended): for every known alias, `delete_alias` removes it from
the languages table, the aliases table, any jargon row keyed on it, and
the in-memory languages list (which holds it at most once) and aliases
mapping, as a single logical transaction; afterwards `alias <name>` and
`jargon <name>` fail with the unknown-identifier (invalid language) error,
the name no longer being in the known-languages set; for a name that is
not a known alias the command fails with the not-an-alias error and
performs no mutation. -/
theorem delete_alias_spec :
    (∀ (name target : String) (st : Session) (db : DB),
        List.lookup name st.aliases = some target →
        st.languages.count name ≤ 1 →
        deleteAliasCmd name st db = Except.ok (delete_alias name st db) ∧
        name ∉ (delete_alias name st db).1.languages ∧
        List.lookup name (delete_alias name st db).1.aliases = none ∧
        name ∉ (delete_alias name st db).2.languagesTable ∧
        List.lookup name (delete_alias name st db).2.aliasesTable = none ∧
        (delete_alias name st db).2.jargonTable.filter
            (fun r => r.language == name) = [] ∧
        aliasCmd name (delete_alias name st db).1 =
          Except.error (CmdError.invalidLanguage name) ∧
        jargonCmd name (delete_alias name st db).1
            (delete_alias name st db).2.jargonTable =
          Except.error (CmdError.invalidLanguage name)) ∧
    (∀ (name : String) (st : Session) (db : DB),
        List.lookup name st.aliases = none →
        deleteAliasCmd name st db = Except.error (CmdError.notAnAlias name)) := by
  constructor
  · intro name target st db hlook hcount
    have hnotmem : name ∉ (delete_alias name st db).1.languages := by
      simp only [delete_alias]
      rw [← List.count_eq_zero]
      have := List.count_erase_self name st.languages
      omega
    refine ⟨by simp [deleteAliasCmd, hlook], hnotmem, ?_, ?_, ?_, ?_, ?_, ?_⟩
    · simpa [delete_alias] using lookup_filter_self name st.aliases
    · simp [delete_alias, List.mem_filter]
    · simpa [delete_alias] using lookup_filter_self name db.aliasesTable
    · simp only [delete_alias]
      rw [List.filter_eq_nil_iff]
      intro r hr
      rw [List.mem_filter] at hr
      simpa using hr.2
    · simp [aliasCmd, hnotmem]
    · simp [jargonCmd, hnotmem]
  · intro name st db hlook
    simp [deleteAliasCmd, hlook]

/-- Witness for C4's amended clauses at a concrete session and store. -/
theorem delete_alias_spec_witness :
    deleteAliasCmd "py"
        ⟨["python3", "py"], [("py", "python3")]⟩
        ⟨["python3", "py"], [("py", "python3")], [⟨"py", "x INSERT_HERE", "k"⟩]⟩ =
      Except.ok
        (delete_alias "py" ⟨["python3", "py"], [("py", "python3")]⟩
          ⟨["python3", "py"], [("py", "python3")], [⟨"py", "x INSERT_HERE", "k"⟩]⟩) ∧
    deleteAliasCmd "swift" ⟨["python3"], []⟩ ⟨["python3"], [], []⟩ =
      Except.error (CmdError.notAnAlias "swift") :=
  ⟨(delete_alias_spec.1 "py" "python3"
      ⟨["python3", "py"], [("py", "python3")]⟩
      ⟨["python3", "py"], [("py", "python3")], [⟨"py", "x INSERT_HERE", "k"⟩]⟩
      (by decide) (by decide)).1,
   delete_alias_spec.2 "swift" ⟨["python3"], []⟩ ⟨["python3"], [], []⟩ (by decide)⟩

/-- First component of an equation between a pair-valued expression and a
literal pair. -/
theorem pair_eq_fst {α β : Type} {x : α × β} {a : α} {b : β}
    (h : x = (a, b)) : x.1 = a := by rw [h]

/-- The invariant of the language registry: every alias key is also a
member of the known-languages list. -/
def aliasKeysInLanguages (st : Session) : Prop :=
  ∀ p ∈ st.aliases, p.1 ∈ st.languages

/-- `create_alias` keeps every alias key inside the language list. -/
theorem create_alias_preserves_invariant (new_alias language : String)
    (st : Session) (db : DB) (hinv : aliasKeysInLanguages st) :
    aliasKeysInLanguages (create_alias new_alias language st db).1 := by
  intro p hp
  simp only [create_alias] at hp ⊢
  rw [List.mem_append]
  unfold dictSet at hp
  by_cases hsome : (List.lookup new_alias st.aliases).isSome
  · rw [if_pos hsome] at hp
    rw [List.mem_map] at hp
    obtain ⟨q, hq, hfq⟩ := hp
    by_cases hqk : q.1 == new_alias
    · rw [if_pos hqk] at hfq
      right
      rw [← hfq]
      simp
    · rw [if_neg hqk] at hfq
      exact Or.inl (hfq ▸ hinv q hq)
  · rw [if_neg hsome] at hp
    rw [List.mem_append] at hp
    rcases hp with hp | hp
    · exact Or.inl (hinv p hp)
    · right
      simp only [List.mem_singleton] at hp
      simp [hp]

/-- `delete_alias` keeps every remaining alias key inside the language
list. -/
theorem delete_alias_preserves_invariant (name : String)
    (st : Session) (db : DB) (hinv : aliasKeysInLanguages st) :
    aliasKeysInLanguages (delete_alias name st db).1 := by
  intro p hp
  simp only [delete_alias] at hp ⊢
  rw [List.mem_filter] at hp
  obtain ⟨hmem, hne⟩ := hp
  have hne' : p.1 ≠ name := by simpa using hne
  exact (List.mem_erase_of_ne hne').mpr (hinv p hmem)

/-- C6: every operation preserves the invariant that every alias key is
also a member of the known-languages set: the bootstrap
`create_languages_table` establishes it, `create alias` and `delete alias`
preserve it, and under it the `run <alias>` membership validation passes
for every alias. -/
theorem alias_language_invariant :
    (∀ (tioLanguages : List String) (aliases : List (String × String)),
        ∀ p ∈ aliases, p.1 ∈ create_languages_table tioLanguages aliases) ∧
    (∀ (new_alias language answer : String) (st st' : Session) (db db' : DB),
        aliasKeysInLanguages st →
        createAliasCmd new_alias language answer st db = Except.ok (st', db') →
        aliasKeysInLanguages st') ∧
    (∀ (name : String) (st st' : Session) (db db' : DB),
        aliasKeysInLanguages st →
        deleteAliasCmd name st db = Except.ok (st', db') →
        aliasKeysInLanguages st') ∧
    (∀ (st : Session) (a target : String),
        aliasKeysInLanguages st →
        List.lookup a st.aliases = some target →
        a ∈ st.languages) := by
  refine ⟨?_, ?_, ?_, ?_⟩
  · intro tioLanguages aliases p hp
    unfold create_languages_table
    rw [List.mem_append, List.mem_map]
    exact Or.inr ⟨p, hp, rfl⟩
  · intro new_alias language answer st st' db db' hinv h
    unfold createAliasCmd at h
    dsimp only at h
    split at h
    · exact absurd h (by simp)
    · split at h
      · simp only [Except.ok.injEq] at h
        exact pair_eq_fst h ▸ create_alias_preserves_invariant _ _ st db hinv
      · exact absurd h (by simp)
  · intro name st st' db db' hinv h
    unfold deleteAliasCmd at h
    split at h
    · simp only [Except.ok.injEq] at h
      exact pair_eq_fst h ▸ delete_alias_preserves_invariant name st db hinv
    · exact absurd h (by simp)
  · intro st a target hinv hlook
    exact hinv (a, target) (lookup_some_mem hlook)

/-- Witness for C6: the invariant concretely implies that the alias `py`
passes the `run` membership validation, and concrete create/delete steps
keep the invariant. -/
theorem alias_language_invariant_witness :
    "py" ∈ (Session.mk ["python3", "py"] [("py", "python3")]).languages :=
  alias_language_invariant.2.2.2 ⟨["python3", "py"], [("py", "python3")]⟩
    "py" "python3"
    (by intro p hp; simp only [List.mem_singleton] at hp; simp [hp])
    (by decide)

end Tias
